import Mathlib

/-!
Shallow embedding of the web-scraper pipeline of `src/main.py`
(`FastWebScraper.search_topic`, `FastWebScraper.is_valid_url`,
`FastWebScraper.generate_pdf`, and the `/webscrape` endpoint `webscrape`).

Python strings are modelled as Lean `String`s; the string helpers
(`.lower()`, `.strip()`, `urllib.parse.quote`) are re-implemented
charwise over `String.data` so that every definition evaluates by
kernel reduction.  Selenium calls are modelled by an explicit
environment `Env`: each fallible call (`webdriver.Chrome`,
`driver.get`, `driver.find_elements`) either returns a value or raises
(`Except.error` carrying the exception message).  Each raw result
element is a `Block` whose three sub-lookups may individually fail
(`none` = the corresponding `find_element` raises); the `href`
attribute lookup may also succeed with a null value, as Selenium's
`get_attribute` does, hence the inner `Option`.
-/

/-- Python `str.lower()` restricted to ASCII case mapping (charwise). -/
def pyLower (s : String) : String := ⟨s.data.map Char.toLower⟩

/-- The whitespace characters stripped by Python `str.strip()` (ASCII part). -/
def isPySpace (c : Char) : Bool :=
  c == ' ' || c == '\t' || c == '\n' || c == '\r' || c == '\x0b' || c == '\x0c'

/-- Python `str.strip()`: drop leading and trailing whitespace. -/
def pyStrip (s : String) : String :=
  ⟨((s.data.dropWhile isPySpace).reverse.dropWhile isPySpace).reverse⟩

/-- UTF-8 bytes of a character, as natural numbers. -/
def utf8Bytes (c : Char) : List Nat :=
  let n := c.toNat
  if n < 128 then [n]
  else if n < 2048 then [192 + n / 64, 128 + n % 64]
  else if n < 65536 then [224 + n / 4096, 128 + (n / 64) % 64, 128 + n % 64]
  else [240 + n / 262144, 128 + (n / 4096) % 64, 128 + (n / 64) % 64, 128 + n % 64]

/-- Upper-case hexadecimal digit. -/
def hexChar (n : Nat) : Char :=
  if n < 10 then Char.ofNat (48 + n) else Char.ofNat (55 + n)

/-- Characters `urllib.parse.quote` keeps unescaped (`ALWAYS_SAFE` plus the
default `safe='/'`). -/
def quoteSafe (c : Char) : Bool :=
  c.isAlphanum || c == '_' || c == '.' || c == '-' || c == '~' || c == '/'

/-- `urllib.parse.quote` on one character. -/
def quoteChar (c : Char) : String :=
  if quoteSafe c then String.singleton c
  else String.join ((utf8Bytes c).map fun b => ⟨['%', hexChar (b / 16), hexChar (b % 16)]⟩)

/-- `urllib.parse.quote(topic)`. -/
def quote (s : String) : String := String.join (s.data.map quoteChar)

/-- `search_url = f"https://duckduckgo.com/html/?q={search_query}"` (main.py line 77). -/
def searchUrl (topic : String) : String :=
  "https://duckduckgo.com/html/?q=" ++ quote topic

/-- One raw `result__body` element of the fetched page.  `titleEl` /
`snippetEl`: `none` means the `find_element` call raises, `some t` means it
succeeds and `.text` is `t`.  `urlEl`: the outer `Option` is the
`find_element` call, the inner one the value of `get_attribute("href")`
(which may be null without raising). -/
structure Block where
  titleEl : Option String
  urlEl : Option (Option String)
  snippetEl : Option String
deriving DecidableEq, Repr

/-- The record `{"title": ..., "url": ..., "description": ...}` appended by
`search_topic` (main.py line 87).  `url` is `Option` because
`get_attribute("href")` can return null; `description` is `Option` because
`generate_pdf` reads it with `result.get('description', 'N/A')`. -/
structure SearchResult where
  title : String
  url : Option String
  description : Option String
deriving DecidableEq, Repr

/-- The body of the per-result `try`/`except` (main.py lines 82-89): the three
sub-lookups; if any raises the block is skipped, otherwise the record is built. -/
def extractBlock (b : Block) : Option SearchResult :=
  match b.titleEl, b.urlEl, b.snippetEl with
  | some t, some u, some s =>
      some { title := pyStrip t, url := u, description := some (pyStrip s) }
  | _, _, _ => none

/-- The whole extraction loop over the page's blocks (main.py lines 80-89). -/
def extractAll (blocks : List Block) : List SearchResult :=
  blocks.filterMap extractBlock

/-- The Selenium environment: whether `webdriver.Chrome(...)` raises, and for
each URL what `driver.get` and `driver.find_elements` do (`Except.error` =
the call raises, carrying the exception message). -/
structure Env where
  acquireFails : Bool
  getResult : String → Except String Unit
  findResult : String → Except String (List Block)

deriving instance DecidableEq for Except

/-- The observable outcome of one `search_topic` call: its return value or the
exception it propagates, the URLs passed to `driver.get`, and whether the
driver was acquired and whether `driver.quit()` ran. -/
structure CrawlOutcome where
  result : Except String (List SearchResult)
  fetched : List String
  driverAcquired : Bool
  driverClosed : Bool
deriving DecidableEq, Repr

/-- `FastWebScraper.search_topic` (main.py lines 71-93).  The driver is
constructed first; the `try` body fetches the single search-results URL and
extracts every block; the `finally` runs `driver.quit()` on every path out of
the `try`.  The `num_pages` parameter appears in the signature but is never
read by the body. -/
def search_topic (env : Env) (topic : String) (num_pages : Nat := 10) : CrawlOutcome :=
  if env.acquireFails then
    { result := Except.error "could not start browser session"
      fetched := []
      driverAcquired := false
      driverClosed := false }
  else
    match env.getResult (searchUrl topic) with
    | Except.error e =>
        { result := Except.error e
          fetched := [searchUrl topic]
          driverAcquired := true
          driverClosed := true }
    | Except.ok _ =>
        match env.findResult (searchUrl topic) with
        | Except.error e =>
            { result := Except.error e
              fetched := [searchUrl topic]
              driverAcquired := true
              driverClosed := true }
        | Except.ok blocks =>
            { result := Except.ok (extractAll blocks)
              fetched := [searchUrl topic]
              driverAcquired := true
              driverClosed := true }

/-- Pattern match at the head of a character list. -/
def hasAt : List Char → List Char → Bool
  | [], _ => true
  | _ :: _, [] => false
  | p :: ps, c :: cs => p == c && hasAt ps cs

/-- Python `pat in s` for strings: contiguous substring containment. -/
def strIn (pat : List Char) : List Char → Bool
  | [] => hasAt pat []
  | c :: cs => hasAt pat (c :: cs) || strIn pat cs

/-- `allowed_domains` (main.py line 99). -/
def allowed_domains : List String := [".com", ".org", ".net", ".edu", ".gov", ".io"]

/-- `FastWebScraper.is_valid_url` (main.py lines 95-100):
`any(domain in url.lower() for domain in allowed_domains)`. -/
def is_valid_url (url : String) : Bool :=
  allowed_domains.any fun domain => strIn domain.data (pyLower url).data

/-- One `c.drawString(x, y, text)` call on the reportlab canvas. -/
structure DrawCmd where
  x : Int
  y : Int
  text : String
deriving DecidableEq, Repr

/-- The draw commands of one PDF page, in issue order. -/
abbrev Page := List DrawCmd

/-- The canvas state inside `generate_pdf`: pages already emitted by
`c.showPage()`, the commands of the page being drawn, and the cursor `y`. -/
structure PdfState where
  donePages : List Page
  cur : Page
  y : Int
deriving DecidableEq, Repr

/-- Python `str(value)` of a possibly-null string: `None` prints as "None". -/
def pyShow : Option String → String
  | some s => s
  | none => "None"

/-- The three `drawString` calls one result issues (main.py lines 123-128):
title at the cursor, URL one 20-unit line below, description (or the `'N/A'`
default of `result.get`) another 20-unit line below; the cursor then moves a
further 40 units (one 20-unit line plus the 20-unit blank gap). -/
def renderResult (r : SearchResult) (y : Int) : List DrawCmd :=
  [ { x := 100, y := y, text := "Title: " ++ r.title },
    { x := 100, y := y - 20, text := "URL: " ++ pyShow r.url },
    { x := 100, y := y - 40, text := "Description: " ++ r.description.getD "N/A" } ]

/-- One iteration of the `for result in results` loop of `generate_pdf`
(main.py lines 117-128): if the cursor is past the bottom margin (`y < 50`),
`c.showPage()` emits the page and the cursor resets to the 750 top margin;
then the result's three lines are drawn and the cursor drops by 80. -/
def pdfStep (st : PdfState) (r : SearchResult) : PdfState :=
  let st' :=
    if st.y < 50 then
      { donePages := st.donePages ++ [st.cur], cur := [], y := (750 : Int) }
    else st
  { donePages := st'.donePages, cur := st'.cur ++ renderResult r st'.y, y := st'.y - 80 }

/-- The header line `f"Search Results for: {query}"` drawn at (100, 750)
(main.py line 114). -/
def pdfHeader (query : String) : DrawCmd :=
  { x := 100, y := 750, text := "Search Results for: " ++ query }

/-- `FastWebScraper.generate_pdf` (main.py lines 102-131), as the list of
pages of the produced document: the cursor starts at 750, the header is
drawn and the cursor drops 30; each result is laid out by `pdfStep`; `c.save()`
emits the page in progress.  (The artifact's file name and timestamp are I/O
outside the embedding; the document content is what the canvas receives.) -/
def generate_pdf (query : String) (results : List SearchResult) : List Page :=
  let st0 : PdfState := { donePages := [], cur := [pdfHeader query], y := (720 : Int) }
  let fin := results.foldl pdfStep st0
  fin.donePages ++ [fin.cur]

/-- The final truncation `scraper.search_topic(query)[:max_results]`
(main.py line 171); the spec calls this operation `aggregate`.  `max_results`
has been validated positive when the slice runs, so the slice is `List.take`. -/
def aggregate (C : List SearchResult) (k : Nat) : List SearchResult := C.take k

/-- A Python exception value as `webscrape` can see one: a FastAPI
`HTTPException` (status code and detail) or a generic exception message. -/
inductive PyErr where
  | http (status : Nat) (detail : String)
  | exn (msg : String)
deriving DecidableEq, Repr

/-- Python `str(e)`: Starlette's `HTTPException.__str__` is
`f"{status_code}: {detail}"`; a generic exception prints its message. -/
def PyErr.str : PyErr → String
  | PyErr.http c d => toString c ++ ": " ++ d
  | PyErr.exn m => m

/-- The successful responses of `/webscrape`: the JSON body
`{"query", "results", "total_results"}` or the PDF reply (message and the
generated document). -/
inductive ApiResponse where
  | json (query : String) (results : List SearchResult) (total_results : Nat)
  | pdf (message : String) (document : List Page)
deriving DecidableEq, Repr

/-- The observable outcome of one `/webscrape` call: the response or the
`HTTPException` (status, detail) finally raised, and the URLs fetched. -/
structure WebOutcome where
  response : Except (Nat × String) ApiResponse
  fetched : List String
deriving DecidableEq, Repr

/-- The `try` block of `webscrape` (main.py lines 164-181): the two input
validations each raise an `HTTPException(400, ...)`; then
`scraper.search_topic(query)` runs (with its default `num_pages`), the
result is sliced to `max_results`, and either the PDF or the JSON reply is
produced.  Any exception the crawl raises propagates out. -/
def webscrapeTry (env : Env) (query : String) (max_results : Int)
    (output_format : String) : Except PyErr ApiResponse × List String :=
  if query = "" ∨ pyStrip query = "" then
    (Except.error (PyErr.http 400 "Query parameter cannot be empty"), [])
  else if max_results < 1 ∨ 50 < max_results then
    (Except.error (PyErr.http 400 "max_results must be between 1 and 50"), [])
  else
    let crawl := search_topic env query
    match crawl.result with
    | Except.error e => (Except.error (PyErr.exn e), crawl.fetched)
    | Except.ok rs =>
        let results := aggregate rs max_results.toNat
        if pyLower output_format = "pdf" then
          (Except.ok (ApiResponse.pdf "PDF generated" (generate_pdf query results)),
            crawl.fetched)
        else
          (Except.ok (ApiResponse.json query results results.length), crawl.fetched)

/-- The `/webscrape` endpoint (main.py lines 151-184): the `try` body wrapped
in `except Exception as e: raise HTTPException(500, f"An error occurred: {str(e)}")` —
note this handler also catches the two validation `HTTPException`s. -/
def webscrape (env : Env) (query : String) (max_results : Int := 50)
    (output_format : String := "json") : WebOutcome :=
  match webscrapeTry env query max_results output_format with
  | (Except.ok r, f) => { response := Except.ok r, fetched := f }
  | (Except.error e, f) =>
      { response := Except.error (500, "An error occurred: " ++ e.str), fetched := f }

/-! Concrete fixtures used by the closed theorems and witnesses. -/

/-- A block all three of whose lookups succeed. -/
def okBlock : Block :=
  { titleEl := some "Example Site", urlEl := some (some "http://example.xyz/page"),
    snippetEl := some "An example." }

/-- The record `okBlock` extracts to. -/
def okRecord : SearchResult :=
  { title := "Example Site", url := some "http://example.xyz/page",
    description := some "An example." }

/-- A block whose title lookup raises. -/
def badBlock : Block :=
  { titleEl := none, urlEl := some (some "http://b.com"), snippetEl := some "s" }

/-- An environment whose single page yields one block with a `.xyz` URL. -/
def envXyz : Env :=
  { acquireFails := false
    getResult := fun _ => Except.ok ()
    findResult := fun _ => Except.ok [okBlock] }

/-- An environment whose single page yields 60 extractable blocks. -/
def env60 : Env :=
  { acquireFails := false
    getResult := fun _ => Except.ok ()
    findResult := fun _ => Except.ok (List.replicate 60 okBlock) }

/-- An environment in which `driver.get` raises. -/
def envGetFails : Env :=
  { acquireFails := false
    getResult := fun _ => Except.error "net::ERR_NAME_NOT_RESOLVED"
    findResult := fun _ => Except.ok [] }

/-! Substring-containment correctness, used to settle the Validity Filter claim. -/

/-- `hasAt pat s` decides whether `pat` occurs at the head of `s`. -/
theorem hasAt_iff (pat : List Char) : ∀ s : List Char,
    hasAt pat s = true ↔ ∃ r, s = pat ++ r := by
  induction pat with
  | nil => intro s; simp [hasAt]
  | cons p ps ih =>
    intro s
    cases s with
    | nil => simp [hasAt]
    | cons c cs =>
      simp only [hasAt, Bool.and_eq_true, beq_iff_eq, ih, List.cons_append,
        List.cons.injEq]
      constructor
      · rintro ⟨rfl, r, rfl⟩; exact ⟨r, rfl, rfl⟩
      · rintro ⟨r, rfl, rfl⟩; exact ⟨rfl, r, rfl⟩

/-- `strIn pat s` decides contiguous substring containment, i.e. Python's
`pat in s`. -/
theorem strIn_iff (pat : List Char) : ∀ s : List Char,
    strIn pat s = true ↔ ∃ l r, s = l ++ pat ++ r := by
  intro s
  induction s with
  | nil =>
    simp only [strIn, hasAt_iff]
    constructor
    · rintro ⟨r, h⟩; exact ⟨[], r, h⟩
    · rintro ⟨l, r, h⟩
      rcases List.append_eq_nil.mp h.symm with ⟨h1, h2⟩
      rcases List.append_eq_nil.mp h1 with ⟨rfl, rfl⟩
      exact ⟨r, h2.symm⟩
  | cons c cs ih =>
    simp only [strIn, Bool.or_eq_true, hasAt_iff, ih]
    constructor
    · rintro (⟨r, h⟩ | ⟨l, r, rfl⟩)
      · exact ⟨[], r, h⟩
      · exact ⟨c :: l, r, rfl⟩
    · rintro ⟨l, r, h⟩
      cases l with
      | nil => exact Or.inl ⟨r, by simpa using h⟩
      | cons d ds =>
        obtain ⟨rfl, h2⟩ := List.cons.inj h
        exact Or.inr ⟨ds, r, h2⟩

/-! ## Claim C8 — the Validity Filter is substring containment -/

/-- C8: `is_valid_url url` is `true` exactly when the lower-cased URL contains
one of the six allow-substrings `.com, .org, .net, .edu, .gov, .io` anywhere
in it (contiguous substring containment, not suffix matching); in particular a
URL containing `.community` is accepted. -/
theorem c8_is_valid_url_substring :
    (∀ url : String, is_valid_url url = true ↔
      ∃ d ∈ allowed_domains, ∃ l r, (pyLower url).data = l ++ d.data ++ r)
  ∧ is_valid_url "https://x.community/a" = true := by
  constructor
  · intro url
    simp only [is_valid_url, List.any_eq_true, strIn_iff]
  · decide

/-! ## Claim C6 — the driver is released on every exit path -/

/-- C6: in every environment — including those where `driver.get` or
`driver.find_elements` raises — `search_topic` has run `driver.quit()` exactly
when the driver was acquired: the session acquired at the start of the call is
released on every exit path. -/
theorem c6_session_released (env : Env) (topic : String) (n : Nat) :
    (search_topic env topic n).driverClosed = (search_topic env topic n).driverAcquired := by
  unfold search_topic
  cases hA : env.acquireFails <;>
    cases hg : env.getResult (searchUrl topic) <;>
      cases hf : env.findResult (searchUrl topic) <;>
        simp [hA, hg, hf]

/-! ## Claim C10 — `num_pages` has no effect -/

/-- C10: `search_topic` ignores its `num_pages` parameter: any two values give
identical outcomes, and (whenever the driver starts) the call performs exactly
one fetch, of the offset-free page-0 search URL. -/
theorem c10_num_pages_no_effect (env : Env) (topic : String) (n1 n2 : Nat) :
    search_topic env topic n1 = search_topic env topic n2
  ∧ (env.acquireFails = false → (search_topic env topic n1).fetched = [searchUrl topic]) := by
  refine ⟨rfl, fun h => ?_⟩
  unfold search_topic
  cases hg : env.getResult (searchUrl topic) <;>
    cases hf : env.findResult (searchUrl topic) <;>
      simp [h, hg, hf]

/-- C10 at a concrete input: `num_pages = 3` and `num_pages = 7` give the same
outcome, and exactly one page is fetched. -/
theorem c10_witness :
    search_topic envXyz "a" 3 = search_topic envXyz "a" 7
  ∧ (search_topic envXyz "a" 3).fetched = [searchUrl "a"] :=
  ⟨(c10_num_pages_no_effect envXyz "a" 3 7).1,
   (c10_num_pages_no_effect envXyz "a" 3 7).2 rfl⟩

/-! ## Claim C5 — a failed sub-field lookup discards only its block -/

/-- A block one of whose three sub-lookups raises extracts to nothing. -/
theorem extractBlock_eq_none (b : Block)
    (h : b.titleEl = none ∨ b.urlEl = none ∨ b.snippetEl = none) :
    extractBlock b = none := by
  obtain ⟨t, u, s⟩ := b
  cases t <;> cases u <;> cases s <;> simp_all [extractBlock]

/-- C5: when any of a block's three sub-field lookups raises, that block
contributes no record (partial or otherwise) and extraction of the remaining
blocks is unchanged; the failure is not surfaced: the crawl still returns
normally with the surviving records. -/
theorem c5_failed_block_discarded (pre post : List Block) (b : Block)
    (hb : b.titleEl = none ∨ b.urlEl = none ∨ b.snippetEl = none) :
    extractAll (pre ++ b :: post) = extractAll (pre ++ post)
  ∧ ∀ (env : Env) (topic : String) (n : Nat),
      env.acquireFails = false →
      env.getResult (searchUrl topic) = Except.ok () →
      env.findResult (searchUrl topic) = Except.ok (pre ++ b :: post) →
      (search_topic env topic n).result = Except.ok (extractAll (pre ++ post)) := by
  have hnone := extractBlock_eq_none b hb
  have hskip : extractAll (pre ++ b :: post) = extractAll (pre ++ post) := by
    simp [extractAll, List.filterMap_append, List.filterMap_cons, hnone]
  refine ⟨hskip, fun env topic n hA hg hf => ?_⟩
  unfold search_topic
  simp only [hA, Bool.false_eq_true, if_false, hg, hf, hskip]

/-- C5 at a concrete input: a block whose title lookup raises, between two
good blocks, is silently skipped. -/
theorem c5_witness :
    extractAll ([okBlock] ++ badBlock :: [okBlock]) = extractAll ([okBlock] ++ [okBlock])
  ∧ ∀ (env : Env) (topic : String) (n : Nat),
      env.acquireFails = false →
      env.getResult (searchUrl topic) = Except.ok () →
      env.findResult (searchUrl topic) = Except.ok ([okBlock] ++ badBlock :: [okBlock]) →
      (search_topic env topic n).result = Except.ok (extractAll ([okBlock] ++ [okBlock])) :=
  c5_failed_block_discarded [okBlock] [okBlock] badBlock (Or.inl rfl)

/-! ## Claim C7 — truncation -/

/-- A collection of 51 results, one more than the claimed internal cap. -/
def C51 : List SearchResult := List.replicate 51 okRecord

/-- C7 as stated is false: the slice `[:max_results]` enforces no internal
cap of 50, so at `k = 51` the truncation keeps 51 results where
`min(k, 50, len C) = 50`. -/
theorem c7_counterexample :
    ¬ (aggregate C51 51).length = min 51 (min 50 C51.length) := by decide

/-- C7 (amended): the truncation is a pure order-preserving prefix of length
`min(k, len C)` — with the internal cap dropped from the bound — and it is
idempotent; for the `k ≤ 50` that the endpoint's validation admits the length
also equals `min(k, 50, len C)`. -/
theorem c7_aggregate_pure_trunc (C : List SearchResult) (k : Nat) :
    (∃ t, aggregate C k ++ t = C)
  ∧ (aggregate C k).length = min k C.length
  ∧ aggregate (aggregate C k) k = aggregate C k
  ∧ (k ≤ 50 → (aggregate C k).length = min k (min 50 C.length)) := by
  refine ⟨⟨C.drop k, List.take_append_drop k C⟩, List.length_take k C, ?_, ?_⟩
  · simp [aggregate, List.take_take]
  · intro hk
    show (C.take k).length = _
    rw [List.length_take]
    omega

/-- C7 (amended) at a concrete input. -/
theorem c7_witness :
    (∃ t, aggregate C51 3 ++ t = C51)
  ∧ (aggregate C51 3).length = min 3 C51.length
  ∧ aggregate (aggregate C51 3) 3 = aggregate C51 3
  ∧ (3 ≤ 50 → (aggregate C51 3).length = min 3 (min 50 C51.length)) :=
  c7_aggregate_pure_trunc C51 3

/-! ## Claim C1 — the Validity Filter is never applied -/

/-- C1 fails on the code: `is_valid_url` is defined but never called, so the
endpoint returns a result whose URL (`http://example.xyz/page`) contains none
of the six allow-substrings. -/
theorem c1_filter_never_applied :
    (webscrape envXyz "rust" 50 "json").response
      = Except.ok (ApiResponse.json "rust" [okRecord] 1)
  ∧ is_valid_url "http://example.xyz/page" = false := by
  exact ⟨by decide, by decide⟩

/-! ## Claim C2 — no pagination, no cap -/

/-- C2 fails on the code: with `num_pages = 2` and a page of 60 extractable
blocks, `search_topic` fetches exactly one URL — the offset-free page-0 URL —
and returns all 60 records, past the claimed cap of 50. -/
theorem c2_single_fetch_no_cap :
    (search_topic env60 "a" 2).fetched = ["https://duckduckgo.com/html/?q=a"]
  ∧ (search_topic env60 "a" 2).result = Except.ok (List.replicate 60 okRecord)
  ∧ (List.replicate 60 okRecord : List SearchResult).length = 60 := by
  refine ⟨by decide, by decide, by decide⟩

/-! ## Claim C3 — the returned collection is bounded -/

/-- C3: for a valid invocation (non-empty topic, `1 ≤ max_results ≤ 50`), the
result list of the JSON response has length at most `min(max_results, 50)`. -/
theorem c3_result_length_bounded (env : Env) (q : String) (k : Int) (fmt : String)
    (q' : String) (rs : List SearchResult) (t : Nat)
    (hq : ¬ pyStrip q = "") (h1 : 1 ≤ k) (h2 : k ≤ 50)
    (hres : (webscrape env q k fmt).response = Except.ok (ApiResponse.json q' rs t)) :
    rs.length ≤ min k.toNat 50 := by
  have hq0 : ¬ q = "" := by
    intro h
    subst h
    exact hq (by decide)
  have hcond : ¬ (q = "" ∨ pyStrip q = "") := by tauto
  have hkcond : ¬ (k < 1 ∨ 50 < k) := by omega
  unfold webscrape webscrapeTry at hres
  rw [if_neg hcond, if_neg hkcond] at hres
  cases hcr : (search_topic env q).result with
  | error e =>
    simp [hcr] at hres
  | ok rsAll =>
    by_cases hfmt : pyLower fmt = "pdf"
    · simp [hcr, hfmt] at hres
    · simp [hcr, hfmt, aggregate] at hres
      obtain ⟨-, hrs, -⟩ := hres
      have hlen := congrArg List.length hrs
      rw [List.length_take] at hlen
      omega

/-- C3 at a concrete input: topic "rust", `max_results = 3`, one result. -/
theorem c3_witness : ([okRecord] : List SearchResult).length ≤ min (Int.toNat 3) 50 :=
  c3_result_length_bounded envXyz "rust" 3 "json" "rust" [okRecord] 1
    (by decide) (by decide) (by decide) (by decide)

/-! ## Claim C4 — input errors are raised before any fetch -/

/-- C4: for an empty topic, `max_results = 0`, or `max_results > 50`, the
endpoint performs no fetch at all and reports an error built from the 400
input-error exception (the outer handler re-wraps it with status 500). -/
theorem c4_input_error_before_fetch (env : Env) (q : String) (k : Int) (fmt : String)
    (h : q = "" ∨ k = 0 ∨ 50 < k) :
    (webscrape env q k fmt).fetched = []
  ∧ ∃ d, (webscrape env q k fmt).response
      = Except.error (500, "An error occurred: " ++ PyErr.str (PyErr.http 400 d)) := by
  by_cases hq : q = "" ∨ pyStrip q = ""
  · unfold webscrape webscrapeTry
    rw [if_pos hq]
    exact ⟨rfl, "Query parameter cannot be empty", rfl⟩
  · have hk : k < 1 ∨ 50 < k := by
      rcases h with h | h | h
      · exact absurd (Or.inl h) hq
      · omega
      · omega
    unfold webscrape webscrapeTry
    rw [if_neg hq, if_pos hk]
    exact ⟨rfl, "max_results must be between 1 and 50", rfl⟩

/-- C4 at a concrete input: the empty topic is rejected with no fetch. -/
theorem c4_witness :
    (webscrape envXyz "" 50 "json").fetched = []
  ∧ ∃ d, (webscrape envXyz "" 50 "json").response
      = Except.error (500, "An error occurred: " ++ PyErr.str (PyErr.http 400 d)) :=
  c4_input_error_before_fetch envXyz "" 50 "json" (Or.inl rfl)

/-! ## Claim C9 — document layout and pagination -/

/-- The page count of `generate_pdf`, abstracted to the loop's numeric state:
`n` results left, cursor `y`, `p` pages already emitted; the value counts the
emitted pages plus the page in progress. -/
def pageCountAux : Nat → Int → Nat → Nat
  | 0, _, p => p + 1
  | n + 1, y, p =>
      if y < 50 then pageCountAux n 670 (p + 1) else pageCountAux n (y - 80) p

/-- The results' draw commands in layout order, starting with the cursor at
`y`: each result takes its three lines at `y, y-20, y-40` and moves the cursor
down 80; a cursor below the 50 bottom margin first resets to the 750 top
margin. -/
def layoutFrom (y : Int) : List SearchResult → List DrawCmd
  | [] => []
  | r :: rs =>
      if y < 50 then renderResult r 750 ++ layoutFrom 670 rs
      else renderResult r y ++ layoutFrom (y - 80) rs

/-- Folding `pdfStep` tracks `pageCountAux` on the numeric state. -/
theorem foldl_pdfStep_length (rs : List SearchResult) : ∀ st : PdfState,
    ((rs.foldl pdfStep st).donePages ++ [(rs.foldl pdfStep st).cur]).length
      = pageCountAux rs.length st.y st.donePages.length := by
  induction rs with
  | nil => intro st; simp [pageCountAux]
  | cons r rs ih =>
    intro st
    rw [List.foldl_cons, ih (pdfStep st r)]
    by_cases h : st.y < 50 <;>
      simp [pdfStep, h, pageCountAux, List.length_append]

/-- Folding `pdfStep` appends exactly the layout of the processed results to
the commands already drawn. -/
theorem foldl_pdfStep_join (rs : List SearchResult) : ∀ st : PdfState,
    ((rs.foldl pdfStep st).donePages ++ [(rs.foldl pdfStep st).cur]).flatten
      = (st.donePages ++ [st.cur]).flatten ++ layoutFrom st.y rs := by
  induction rs with
  | nil => intro st; simp [layoutFrom]
  | cons r rs ih =>
    intro st
    rw [List.foldl_cons, ih (pdfStep st r)]
    by_cases h : st.y < 50 <;>
      simp [pdfStep, h, layoutFrom, List.flatten_append, List.append_assoc]

/-- Closed form for `pageCountAux` when the cursor is above the bottom margin:
the current page still takes `(y - 50) / 80 + 1` results and every later page
takes 9. -/
theorem pageCountAux_formula (n : Nat) : ∀ (y : Int) (p : Nat), 50 ≤ y →
    pageCountAux n y p = p + 1 + (n - ((y - 50).toNat / 80 + 1) + 8) / 9 := by
  induction n using Nat.strong_induction_on with
  | _ n ih =>
    intro y p hy
    match n with
    | 0 =>
      simp only [pageCountAux]
      omega
    | Nat.succ m =>
      rw [pageCountAux, if_neg (by omega)]
      by_cases h2 : (50 : Int) ≤ y - 80
      · rw [ih m (by omega) (y - 80) p h2]
        have : (y - 80 - 50).toNat / 80 + 1 = (y - 50).toNat / 80 := by omega
        omega
      · match m with
        | 0 =>
          simp only [pageCountAux]
          have : (y - 50).toNat / 80 = 0 := by omega
          omega
        | Nat.succ m' =>
          rw [pageCountAux, if_pos (by omega), ih m' (by omega) 670 (p + 1) (by norm_num)]
          have h670 : ((670 : Int) - 50).toNat / 80 = 7 := by omega
          have hy0 : (y - 50).toNat / 80 = 0 := by omega
          rw [h670, hy0]
          omega

/-- The number of pages `generate_pdf` produces, as a function of the number
of results. -/
theorem generate_pdf_length (q : String) (rs : List SearchResult) :
    (generate_pdf q rs).length = pageCountAux rs.length 720 0 := by
  unfold generate_pdf
  exact foldl_pdfStep_length rs { donePages := [], cur := [pdfHeader q], y := 720 }

/-- C9 as stated is false at `N = 0`: with zero results the claimed page count
`ceil(N/C)` is 0 (shown for the code's per-page capacity of 9), but the
produced document has one page, holding the header line. -/
theorem c9_counterexample :
    (generate_pdf "q" []).length = 1 ∧ (0 + 8) / 9 = 0 :=
  ⟨rfl, rfl⟩

/-- C9 (amended): the document's commands are exactly one header line stating
the query followed by the deterministic layout of the results (three fixed
lines plus a gap per result, cursor starting at the 720 position under the
750 top-margin header, page break with reset to 750 when the cursor passes the
50 bottom margin); a missing description renders the fixed `N/A` placeholder;
and for `N ≥ 1` results the document has `ceil(N/9)` pages — while `N = 0`
still produces one page. -/
theorem c9_document_layout (q : String) (rs : List SearchResult) :
    (generate_pdf q rs).flatten = pdfHeader q :: layoutFrom 720 rs
  ∧ (1 ≤ rs.length → (generate_pdf q rs).length = (rs.length + 8) / 9)
  ∧ (rs.length = 0 → (generate_pdf q rs).length = 1)
  ∧ ∀ (r : SearchResult) (y : Int), r.description = none →
      renderResult r y =
        [ { x := 100, y := y, text := "Title: " ++ r.title },
          { x := 100, y := y - 20, text := "URL: " ++ pyShow r.url },
          { x := 100, y := y - 40, text := "Description: N/A" } ] := by
  refine ⟨?_, ?_, ?_, ?_⟩
  · have h := foldl_pdfStep_join rs { donePages := [], cur := [pdfHeader q], y := 720 }
    unfold generate_pdf
    simpa using h
  · intro h
    rw [generate_pdf_length, pageCountAux_formula rs.length 720 0 (by norm_num)]
    omega
  · intro h
    rw [generate_pdf_length, h]
    rfl
  · intro r y hd
    simp [renderResult, hd]

/-- A concrete run of ten results. -/
def tenResults : List SearchResult := List.replicate 10 okRecord

/-- C9 (amended) at a concrete input: ten results paginate onto
`ceil(10/9) = 2` pages. -/
theorem c9_witness :
    (generate_pdf "q" tenResults).length = (tenResults.length + 8) / 9 :=
  (c9_document_layout "q" tenResults).2.1 (by decide)
